import Mathlib

/-!
Shallow embedding of the gesture-to-control decision pipeline of the
hand-movement repository.

Two detector variants are modelled, following the source:

* `Improved` — `EnhancedHandGestureDetector` from
  `src/hand_detector/improved_hand_gesture_detector.py` (the canonical
  "Enhanced" variant the spec follows).
* `Basic` — `HandGestureDetector` from `src/gestures.py`.

Modelling conventions:

* Pixel coordinates are integers (`ℤ × ℤ`), exactly as in the source where
  landmarks are converted with `int(lm.x * w), int(lm.y * h)`.
* The source compares Euclidean distances (`np.sqrt(...)`) against rational
  multiples of a palm-width reference distance.  We compare squared
  distances against squared thresholds, which is equivalent since both
  sides are nonnegative; this keeps every predicate decidable over `ℤ`.
  The degenerate palm-width-0 case also agrees with the Python semantics
  (`x / 0.0` is `inf`/`nan` under numpy, so every `< c` test is `False`
  and every `> c` test is `True` iff the numerator is positive, which is
  exactly what the squared comparison gives).
* Two front-end quantities are transcendental in the source and are passed
  to the model as inputs: `angle`, the value of
  `np.degrees(np.arctan2(dy, dx))` (a real in `(-180, 180]`), and
  `rawThrottle`, the value of `(1 - wrist_y / h) ** 1.5`.  Every theorem
  below quantifies over them (or constrains them exactly as the claim
  does), so no behaviour is lost; concrete counterexamples pick landmark
  configurations whose arctangent is exactly representable
  (`atan2(0, d) = 0` for `d > 0`).
* Continuous values (smoothed steering/throttle) are rationals; the claims
  proven do not depend on any irrational intermediate value.
-/

namespace HandMove

/-- Squared Euclidean distance between two integer pixel points.  The source
(`calculate_distance` / inline `np.sqrt` computations) takes the square root;
all uses compare distances, so squares suffice. -/
def sqDist (p q : ℤ × ℤ) : ℤ := (p.1 - q.1) ^ 2 + (p.2 - q.2) ^ 2

/-- Clamp a rational to `[lo, hi]`, modelling Python `max(lo, min(hi, x))`. -/
def clampQ (lo hi x : ℚ) : ℚ := max lo (min hi x)

namespace Improved

/-- Gesture labels produced by `EnhancedHandGestureDetector`
(the `controls['gesture_name']` strings). -/
inductive GName where
  | noHandDetected      -- "No hand detected"
  | errorName           -- "Error"
  | stopTrafficSign     -- "Stop (Traffic Sign)"
  | boostName           -- "Boost"
  | brakeName           -- "Brake"
  | stopName            -- "Stop"
  | turningLeft         -- "Turning Left"
  | turningRight        -- "Turning Right"
  | forwardName         -- "Forward"
  deriving DecidableEq, Repr

/-- Discrete command tokens passed to `_update_command_stability`. -/
inductive Cmd where
  | stop                -- "STOP"
  | forwardBoost        -- "FORWARD_BOOST"
  | left                -- "LEFT"
  | right               -- "RIGHT"
  | forward             -- "FORWARD"
  deriving DecidableEq, Repr

/-- The controls dictionary built by `detect_gestures`. -/
structure Controls where
  steering    : ℚ
  throttle    : ℚ
  braking     : Bool
  boost       : Bool
  gestureName : GName
  speed       : ℚ
  direction   : ℚ
  deriving DecidableEq, Repr

/-- The detector's mutable smoothing/stability state
(`prev_steering`, `prev_throttle`, `last_command`, `command_stability_count`). -/
structure DetState where
  prevSteering          : ℚ
  prevThrottle          : ℚ
  lastCommand           : Option Cmd
  commandStabilityCount : ℕ
  deriving DecidableEq, Repr

/-- Default controls dict created at the top of `detect_gestures`. -/
def defaultControls : Controls :=
  { steering := 0, throttle := 0, braking := false, boost := false
    gestureName := .noHandDetected, speed := 0, direction := 0 }

/-- Controls dict returned from the `except` branch of `detect_gestures`. -/
def errorControls : Controls :=
  { steering := 0, throttle := 0, braking := false, boost := false
    gestureName := .errorName, speed := 0, direction := 0 }

/-- The eleven landmark points gathered at the start of
`_extract_controls_from_landmarks` (indices 0,4,8,12,16,20,2,5,9,13,17). -/
structure GPts where
  wrist     : ℤ × ℤ
  thumbTip  : ℤ × ℤ
  indexTip  : ℤ × ℤ
  middleTip : ℤ × ℤ
  ringTip   : ℤ × ℤ
  pinkyTip  : ℤ × ℤ
  thumbMcp  : ℤ × ℤ
  indexMcp  : ℤ × ℤ
  middleMcp : ℤ × ℤ
  ringMcp   : ℤ × ℤ
  pinkyMcp  : ℤ × ℤ
  deriving DecidableEq, Repr

/-- Gather the landmark points that `_extract_controls_from_landmarks` indexes,
in source order.  A list with fewer than 21 points makes some lookup fail,
modelling the `IndexError` the Python code raises there. -/
def gatherPoints (l : List (ℤ × ℤ)) : Option GPts := do
  let wrist ← l[0]?
  let thumbTip ← l[4]?
  let indexTip ← l[8]?
  let middleTip ← l[12]?
  let ringTip ← l[16]?
  let pinkyTip ← l[20]?
  let thumbMcp ← l[2]?
  let indexMcp ← l[5]?
  let middleMcp ← l[9]?
  let ringMcp ← l[13]?
  let pinkyMcp ← l[17]?
  return { wrist, thumbTip, indexTip, middleTip, ringTip, pinkyTip,
           thumbMcp, indexMcp, middleMcp, ringMcp, pinkyMcp }

/-- `self.steering_smoothing = 0.5`. -/
def steeringSmoothing : ℚ := 1 / 2

/-- `self.throttle_smoothing = 0.4`. -/
def throttleSmoothing : ℚ := 2 / 5

/-- `self.stability_threshold = 3`. -/
def stabilityThreshold : ℕ := 3

/-- Raw steering from the hand angle (degrees): the `-135 ≤ angle ≤ -45`
window maps affinely to `[-1, 1]`, saturating to `±1` outside. -/
def rawSteeringOfAngle (angle : ℚ) : ℚ :=
  if -135 ≤ angle ∧ angle ≤ -45 then (angle + 90) / 45
  else if angle < -135 then -1 else 1

/-- Smoothed, clamped steering:
`steering = prev * 0.5 + raw * (1 - 0.5)`, then `max(-1.0, min(1.0, ·))`. -/
def smoothSteer (prev raw : ℚ) : ℚ :=
  clampQ (-1) 1 (prev * steeringSmoothing + raw * (1 - steeringSmoothing))

/-- Smoothed, clamped throttle:
`throttle = prev * 0.4 + raw * (1 - 0.4)`, then `max(0.0, min(1.0, ·))`. -/
def smoothThrottle (prev raw : ℚ) : ℚ :=
  clampQ 0 1 (prev * throttleSmoothing + raw * (1 - throttleSmoothing))

/-- `_update_command_stability`: same command increments the counter,
a different command resets it to 1 and records the new command. -/
def updateCommandStability (cmd : Cmd) (st : DetState) : DetState :=
  if st.lastCommand = some cmd then
    { st with commandStabilityCount := st.commandStabilityCount + 1 }
  else
    { st with lastCommand := some cmd, commandStabilityCount := 1 }

/-- `index_curled = index_tip[1] > index_mcp[1]` (and analogues). -/
def indexCurled (g : GPts) : Bool := g.indexMcp.2 < g.indexTip.2
def middleCurled (g : GPts) : Bool := g.middleMcp.2 < g.middleTip.2
def ringCurled (g : GPts) : Bool := g.ringMcp.2 < g.ringTip.2
def pinkyCurled (g : GPts) : Bool := g.pinkyMcp.2 < g.pinkyTip.2

/-- `thumb_extended = thumb_tip[1] < wrist[1] - h*0.1`. -/
def thumbExtended (g : GPts) (h : ℚ) : Bool :=
  decide ((g.thumbTip.2 : ℚ) < (g.wrist.2 : ℚ) - h * (1 / 10))

/-- `fist_detected = index_curled and middle_curled and ring_curled and pinky_curled`. -/
def fistDetected (g : GPts) : Bool :=
  indexCurled g && middleCurled g && ringCurled g && pinkyCurled g

/-- `all_fingers_extended = not (index_curled or middle_curled or ring_curled or pinky_curled)`. -/
def allFingersExtended (g : GPts) : Bool :=
  !(indexCurled g || middleCurled g || ringCurled g || pinkyCurled g)

/-- `boost_gesture = thumb_extended and` all four fingers curled. -/
def boostGesture (g : GPts) (h : ℚ) : Bool :=
  thumbExtended g h && indexCurled g && middleCurled g && ringCurled g && pinkyCurled g

/-- `brake_gesture = fist_detected and not thumb_extended`. -/
def brakeGesture (g : GPts) (h : ℚ) : Bool :=
  fistDetected g && !thumbExtended g h

/-- Body of `_detect_stop_sign_gesture` on the gathered points: each of the
four fingers is extended (`dist_tip > dist_mcp * 1.2`, squared:
`25·d²tip > 36·d²mcp`), the thumb is extended (`dist_tip > dist_mcp`), and the
adjacent fingertip spacings satisfy `max_spacing < min_spacing * 2.0`
(squared: `maxSq < 4·minSq`). -/
def stopSignCore (g : GPts) : Bool :=
  let fingerExt := fun (tip mcp : ℤ × ℤ) =>
    decide (36 * sqDist mcp g.wrist < 25 * sqDist tip g.wrist)
  let thumbExt := decide (sqDist g.thumbMcp g.wrist < sqDist g.thumbTip g.wrist)
  let allExt := fingerExt g.indexTip g.indexMcp && fingerExt g.middleTip g.middleMcp &&
    fingerExt g.ringTip g.ringMcp && fingerExt g.pinkyTip g.pinkyMcp && thumbExt
  let s1 := sqDist g.indexTip g.middleTip
  let s2 := sqDist g.middleTip g.ringTip
  let s3 := sqDist g.ringTip g.pinkyTip
  let minS := min s1 (min s2 s3)
  let maxS := max s1 (max s2 s3)
  let evenlySpaced := decide (maxS < 4 * minS)
  allExt && evenlySpaced

/-- `_detect_stop_sign_gesture` as called on a raw landmark list: it indexes
`landmark_points[0..20]` with no length guard, so a short list fails
(`none` models the `IndexError`). -/
def detectStopSignGesture (l : List (ℤ × ℤ)) : Option Bool :=
  (gatherPoints l).map stopSignCore

/-- Body of `_extract_controls_from_landmarks` after the landmark gather:
steering and throttle smoothing, then the if/elif gesture chain.
`angle` is `degrees(atan2(dy, dx))` of pinky-MCP minus index-MCP;
`rawThrottle` is `(1 - wrist_y/h) ** 1.5`; `h` is the frame height;
`c0` is the controls dict passed in by `detect_gestures`. -/
def extractCore (g : GPts) (angle rawThrottle h : ℚ) (st : DetState)
    (c0 : Controls) : Controls × DetState :=
  let steering := smoothSteer st.prevSteering (rawSteeringOfAngle angle)
  let throttle := smoothThrottle st.prevThrottle rawThrottle
  let st1 := { st with prevSteering := steering, prevThrottle := throttle }
  let c1 := { c0 with steering := steering, throttle := throttle }
  if stopSignCore g then
    ({ c1 with gestureName := .stopTrafficSign, braking := true,
               throttle := 0, boost := false },
     updateCommandStability .stop st1)
  else if boostGesture g h then
    ({ c1 with gestureName := .boostName, boost := true, throttle := 1 },
     updateCommandStability .forwardBoost st1)
  else if brakeGesture g h then
    ({ c1 with gestureName := .brakeName, braking := true, throttle := 0 },
     updateCommandStability .stop st1)
  else if allFingersExtended g then
    ({ c1 with gestureName := .stopName, braking := true, throttle := 0 },
     updateCommandStability .stop st1)
  else if 3 / 10 < |steering| then
    if steering < -(3 / 10) then
      ({ c1 with gestureName := .turningLeft }, updateCommandStability .left st1)
    else
      ({ c1 with gestureName := .turningRight }, updateCommandStability .right st1)
  else
    ({ c1 with gestureName := .forwardName }, updateCommandStability .forward st1)

/-- `detect_gestures`: no hand resets the stability counter and returns the
default controls; a hand is processed by the extraction, whose landmark
indexing failure lands in the `except` branch (fixed error controls, state
untouched); the success path adds the `speed`/`direction` compatibility
fields. -/
def detectGestures (inp : Option (List (ℤ × ℤ))) (angle rawThrottle h : ℚ)
    (st : DetState) : Controls × DetState :=
  match inp with
  | none =>
      ({ defaultControls with speed := defaultControls.throttle,
                              direction := defaultControls.steering },
       { st with commandStabilityCount := 0 })
  | some l =>
      match gatherPoints l with
      | none => (errorControls, st)
      | some g =>
          let r := extractCore g angle rawThrottle h st defaultControls
          ({ r.1 with speed := r.1.throttle, direction := r.1.steering }, r.2)

/-- One tick of the detector state under a fixed hand input (used for the
smoothing-convergence claim). -/
def stepState (g : GPts) (angle rawThrottle h : ℚ) (st : DetState) : DetState :=
  (extractCore g angle rawThrottle h st defaultControls).2

/-- Category of a gesture label: stop, boost, brake or driving
(hand-absent labels have no category). -/
inductive Category where
  | stopC | boostC | brakeC | drivingC
  deriving DecidableEq, Repr

def categoryOf : GName → Option Category
  | .noHandDetected => none
  | .errorName => none
  | .stopTrafficSign => some .stopC
  | .stopName => some .stopC
  | .boostName => some .boostC
  | .brakeName => some .brakeC
  | .turningLeft => some .drivingC
  | .turningRight => some .drivingC
  | .forwardName => some .drivingC

/-- Fresh detector state (`prev_steering = prev_throttle = 0`,
`last_command = None`, `command_stability_count = 0`). -/
def zeroState : DetState :=
  { prevSteering := 0, prevThrottle := 0, lastCommand := none,
    commandStabilityCount := 0 }

/-- A detector state with nonzero previous smoothed values, used to probe the
error path. -/
def errState : DetState :=
  { prevSteering := 1 / 2, prevThrottle := 3 / 10, lastCommand := none,
    commandStabilityCount := 0 }

/-- A hand configuration on which both the stop-sign predicate and the brake
(fist) predicate hold simultaneously: every fingertip is below its MCP
(curled under the y-comparison) yet farther from the wrist than its MCP
(extended under the distance-ratio test), fingertips evenly spaced, thumb not
raised.  Its MCP-line is horizontal, so the steering angle
`degrees(atan2(0, 15))` is exactly `0`. -/
def dualG : GPts :=
  { wrist := (100, 100), thumbTip := (80, 120), indexTip := (110, 140),
    middleTip := (120, 140), ringTip := (130, 140), pinkyTip := (140, 140),
    thumbMcp := (90, 100), indexMcp := (110, 100), middleMcp := (115, 100),
    ringMcp := (120, 100), pinkyMcp := (125, 100) }

end Improved

namespace Basic

/-- Gesture labels set by `HandGestureDetector.detect_gestures`. -/
inductive BName where
  | noHand        -- "No hand detected"
  | fistBraking   -- "Fist (Braking)"
  | boostSpeedUp  -- "Boost (Speed Up)"
  | stopBraking   -- "Stop (Braking)"
  deriving DecidableEq, Repr

/-- Controls dictionary of `HandGestureDetector.detect_gestures`. -/
structure BControls where
  steering    : ℚ
  throttle    : ℚ
  braking     : Bool
  boost       : Bool
  gestureName : BName
  deriving DecidableEq, Repr

/-- Mutable state of `HandGestureDetector`: previous smoothed values, the two
gesture latches and their debounce counters. -/
structure BState where
  prevSteering     : ℚ
  prevThrottle     : ℚ
  brakingActive    : Bool
  boostActive      : Bool
  brakeStableCount : ℕ
  boostStableCount : ℕ
  deriving DecidableEq, Repr

/-- `self.stable_frames_required = 3`. -/
def stableFramesRequired : ℕ := 3

/-- `self.steering_smoothing = 0.6`. -/
def steeringSmoothingB : ℚ := 3 / 5

/-- `self.throttle_smoothing = 0.5`. -/
def throttleSmoothingB : ℚ := 1 / 2

/-- Landmark access `landmarks[i]`.  (MediaPipe always supplies 21 points;
inputs of interest in the theorems below have at least 21 entries, the
default is never reached there.) -/
def pt (l : List (ℤ × ℤ)) (i : ℕ) : ℤ × ℤ := l.getD i (0, 0)

/-- `np.sign`, as applied to the raw steering value. -/
def signQ (q : ℚ) : ℚ := if 0 < q then 1 else if q < 0 then -1 else 0

/-- Raw steering of `detect_gestures` (lines 164-182): the three angle
windows, then `np.sign(raw) * raw ** 2`. -/
def rawSteeringB (angle : ℚ) : ℚ :=
  let r :=
    if -45 ≤ angle ∧ angle ≤ 45 then angle / 45
    else if 135 < angle ∨ angle < -135 then
      (if 0 < angle then (angle - 180) / 45 else (angle + 180) / 45)
    else 0
  signQ r * r ^ 2

/-- `index_curled = index_tip[1] > index_mcp[1]` etc. (lines 203-206). -/
def indexCurledB (l : List (ℤ × ℤ)) : Bool := (pt l 5).2 < (pt l 8).2
def middleCurledB (l : List (ℤ × ℤ)) : Bool := (pt l 9).2 < (pt l 12).2
def ringCurledB (l : List (ℤ × ℤ)) : Bool := (pt l 13).2 < (pt l 16).2
def pinkyCurledB (l : List (ℤ × ℤ)) : Bool := (pt l 17).2 < (pt l 20).2

/-- `fist_detected = index_curled and middle_curled and ring_curled and pinky_curled`. -/
def fistPredB (l : List (ℤ × ℤ)) : Bool :=
  indexCurledB l && middleCurledB l && ringCurledB l && pinkyCurledB l

/-- `thumb_extended = thumb_tip[1] < wrist_pos[1]` (line 228). -/
def thumbExtendedB (l : List (ℤ × ℤ)) : Bool := (pt l 4).2 < (pt l 0).2

/-- `boost_detected = thumb_extended and` all four fingers curled (line 230). -/
def boostPredB (l : List (ℤ × ℤ)) : Bool :=
  thumbExtendedB l && indexCurledB l && middleCurledB l && ringCurledB l && pinkyCurledB l

/-- `is_fist_gesture`: short lists return `False`; otherwise the four
non-thumb fingertips must be close to their MCPs relative to palm width
(`dist / palm_width < 0.45`, squared: `400·d² < 81·palm²`).  The source also
computes a thumb condition but does not use it in the result. -/
def isFistGesture (l : List (ℤ × ℤ)) : Bool :=
  if l.length < 21 then false
  else
    let indexClosed := decide (400 * sqDist (pt l 8) (pt l 5) < 81 * sqDist (pt l 5) (pt l 17))
    let middleClosed := decide (400 * sqDist (pt l 12) (pt l 9) < 81 * sqDist (pt l 5) (pt l 17))
    let ringClosed := decide (400 * sqDist (pt l 16) (pt l 13) < 81 * sqDist (pt l 5) (pt l 17))
    let pinkyClosed := decide (400 * sqDist (pt l 20) (pt l 17) < 81 * sqDist (pt l 5) (pt l 17))
    indexClosed && middleClosed && ringClosed && pinkyClosed

/-- `is_stop_gesture`: short lists return `False`; otherwise fingers extended
(`dist(tip, wrist) > c · palm_width` with `c` = 0.8/0.8/0.7/0.6), fingertips
spread (`> 0.2 · palm_width`), and palm facing
(`dist(index_pip, pinky_pip) > 0.6 · palm_width`), all via squared
comparisons.  The thumb condition (`> 0.5 · palm_width`) is computed by the
source but unused in the returned conjunction. -/
def isStopGesture (l : List (ℤ × ℤ)) : Bool :=
  if l.length < 21 then false
  else
    let palmSq := sqDist (pt l 5) (pt l 17)
    let indexExt := decide (16 * palmSq < 25 * sqDist (pt l 8) (pt l 0))
    let middleExt := decide (16 * palmSq < 25 * sqDist (pt l 12) (pt l 0))
    let ringExt := decide (49 * palmSq < 100 * sqDist (pt l 16) (pt l 0))
    let pinkyExt := decide (9 * palmSq < 25 * sqDist (pt l 20) (pt l 0))
    let fingersExtended := indexExt && middleExt && ringExt && pinkyExt
    let imSpread := decide (palmSq < 25 * sqDist (pt l 8) (pt l 12))
    let mrSpread := decide (palmSq < 25 * sqDist (pt l 12) (pt l 16))
    let rpSpread := decide (palmSq < 25 * sqDist (pt l 16) (pt l 20))
    let fingersSpread := imSpread && mrSpread && rpSpread
    let palmFacing := decide (9 * palmSq < 25 * sqDist (pt l 6) (pt l 18))
    fingersExtended && fingersSpread && palmFacing

/-- `is_boost_gesture`: short lists return `False`; otherwise index and middle
extended (`> 0.7 · palm_width`), thumb/ring/pinky closed (`< 0.4 · palm_width`,
squared: `25·d² < 4·palm²`), and the two extended fingers not close together
(`not (dist < 0.3 · palm_width)`). -/
def isBoostGesture (l : List (ℤ × ℤ)) : Bool :=
  if l.length < 21 then false
  else
    let palmSq := sqDist (pt l 5) (pt l 17)
    let indexExt := decide (49 * palmSq < 100 * sqDist (pt l 8) (pt l 5))
    let middleExt := decide (49 * palmSq < 100 * sqDist (pt l 12) (pt l 9))
    let thumbClosed := decide (25 * sqDist (pt l 4) (pt l 2) < 4 * palmSq)
    let ringClosed := decide (25 * sqDist (pt l 16) (pt l 13) < 4 * palmSq)
    let pinkyClosed := decide (25 * sqDist (pt l 20) (pt l 17) < 4 * palmSq)
    let fingersTogether := decide (100 * sqDist (pt l 8) (pt l 12) < 9 * palmSq)
    indexExt && middleExt && thumbClosed && ringClosed && pinkyClosed && !fingersTogether

/-- One tick of `HandGestureDetector.detect_gestures` (lines 100-259, minus
drawing).  A `none` input is the "no hands detected" branch; a `some l` input
runs steering/throttle smoothing, the brake and boost debounce blocks, and the
final stop-gesture check.  As in `Improved`, `angle` models
`degrees(atan2(middle_tip - wrist))` and `rawThrottle` models
`(1 - wrist_y/h) ** 1.5`. -/
def bDetectStep (inp : Option (List (ℤ × ℤ))) (angle rawThrottle : ℚ)
    (st : BState) : BControls × BState :=
  let c0 : BControls :=
    { steering := 0, throttle := 1 / 5, braking := false, boost := false
      gestureName := .noHand }
  match inp with
  | none =>
      let st1 := { st with boostActive := false, boostStableCount := 0 }
      let st2 :=
        if 0 < st1.brakeStableCount then
          { st1 with brakeStableCount := st1.brakeStableCount - 1 }
        else { st1 with brakingActive := false }
      ({ c0 with braking := st2.brakingActive }, st2)
  | some l =>
      let steering := st.prevSteering * steeringSmoothingB +
        rawSteeringB angle * (1 - steeringSmoothingB)
      let rawT := clampQ 0 1 rawThrottle
      let throttle := st.prevThrottle * throttleSmoothingB +
        rawT * (1 - throttleSmoothingB)
      let st2 := { st with prevSteering := steering, prevThrottle := throttle }
      let c2 := { c0 with steering := steering, throttle := throttle }
      -- brake stability block (lines 211-225)
      let st3c3 : BState × BControls :=
        if fistPredB l then
          let cnt := min stableFramesRequired (st2.brakeStableCount + 1)
          let stA := { st2 with brakeStableCount := cnt }
          if stableFramesRequired ≤ cnt then
            ({ stA with brakingActive := true }, { c2 with gestureName := .fistBraking })
          else (stA, c2)
        else
          if 0 < st2.brakeStableCount then
            ({ st2 with brakeStableCount := st2.brakeStableCount - 1 }, c2)
          else ({ st2 with brakingActive := false }, c2)
      let st3 := st3c3.1
      let c4 := { st3c3.2 with braking := st3.brakingActive }
      -- boost stability block (lines 227-248)
      let st5c5 : BState × BControls :=
        if boostPredB l then
          let cnt := min stableFramesRequired (st3.boostStableCount + 1)
          let stA := { st3 with boostStableCount := cnt }
          if stableFramesRequired ≤ cnt then
            ({ stA with boostActive := true },
             { c4 with boost := true, throttle := 1, gestureName := .boostSpeedUp })
          else (stA, c4)
        else
          if 0 < st3.boostStableCount then
            ({ st3 with boostStableCount := st3.boostStableCount - 1 }, c4)
          else ({ st3 with boostActive := false }, c4)
      let st5 := st5c5.1
      let c6 := { st5c5.2 with boost := st5.boostActive }
      -- stop gesture check (lines 250-254)
      let c7 :=
        if !st5.brakingActive && !st5.boostActive && isStopGesture l then
          { c6 with braking := true, gestureName := .stopBraking }
        else c6
      (c7, st5)

/-- A frame input: optional landmark list plus the per-frame angle and raw
throttle values. -/
def BInput : Type := Option (List (ℤ × ℤ)) × ℚ × ℚ

/-- Run a list of frame inputs through the detector state. -/
def bRun (inputs : List BInput) (st : BState) : BState :=
  inputs.foldl (fun s i => (bDetectStep i.1 i.2.1 i.2.2 s).2) st

/-- Detector state after one hand tick (second component of `bDetectStep`). -/
def bStepS (l : List (ℤ × ℤ)) (a t : ℚ) (st : BState) : BState :=
  (bDetectStep (some l) a t st).2

/-- An input on which the raw brake (fist) predicate does not hold:
either no hand, or a hand whose fist predicate is false. -/
def NonFistInput (i : BInput) : Prop :=
  ∀ l, i.1 = some l → fistPredB l = false

/-- An input on which the raw boost predicate does not hold. -/
def NonBoostInput (i : BInput) : Prop :=
  ∀ l, i.1 = some l → boostPredB l = false

/-- Fresh `HandGestureDetector` state. -/
def zeroBState : BState :=
  { prevSteering := 0, prevThrottle := 0, brakingActive := false,
    boostActive := false, brakeStableCount := 0, boostStableCount := 0 }

/-- State with the brake latched at the stability threshold, used to probe the
brake-decay behaviour. -/
def decaySt : BState :=
  { prevSteering := 0, prevThrottle := 0, brakingActive := true,
    boostActive := false, brakeStableCount := 3, boostStableCount := 0 }

/-- A degenerate 21-point hand (all landmarks equal): no finger is curled, no
finger is extended, so the fist, boost and stop predicates are all false. -/
def neutralHand : List (ℤ × ℤ) := List.replicate 21 (100, 100)

/-- A 21-point fist: every fingertip below its MCP, thumb not above the
wrist. -/
def fistHand : List (ℤ × ℤ) :=
  [(100, 100), (100, 100), (90, 100), (100, 100), (80, 120),
   (110, 100), (100, 100), (100, 100), (110, 140), (115, 100),
   (100, 100), (100, 100), (120, 140), (120, 100), (100, 100),
   (100, 100), (130, 140), (125, 100), (100, 100), (100, 100),
   (140, 140)]

/-- A 21-point thumb-up fist: like `fistHand` but the thumb tip above the
wrist, so the boost predicate holds. -/
def boostHand : List (ℤ × ℤ) :=
  [(100, 100), (100, 100), (90, 100), (100, 100), (80, 50),
   (110, 100), (100, 100), (100, 100), (110, 140), (115, 100),
   (100, 100), (100, 100), (120, 140), (120, 100), (100, 100),
   (100, 100), (130, 140), (125, 100), (100, 100), (100, 100),
   (140, 140)]

end Basic

/-! ## Helper lemmas -/

theorem clampQ_le (lo hi x : ℚ) (h : lo ≤ hi) : clampQ lo hi x ≤ hi := by
  unfold clampQ
  exact max_le h (min_le_left _ _)

theorem le_clampQ (lo hi x : ℚ) : lo ≤ clampQ lo hi x := le_max_left _ _

theorem clampQ_of_mem (lo hi x : ℚ) (h1 : lo ≤ x) (h2 : x ≤ hi) :
    clampQ lo hi x = x := by
  unfold clampQ
  rw [min_eq_right h2, max_eq_right h1]

namespace Improved

theorem updateCommandStability_prev (cmd : Cmd) (st : DetState) :
    (updateCommandStability cmd st).prevSteering = st.prevSteering ∧
    (updateCommandStability cmd st).prevThrottle = st.prevThrottle := by
  unfold updateCommandStability
  split <;> exact ⟨rfl, rfl⟩

theorem smoothSteer_mem (prev raw : ℚ) :
    -1 ≤ smoothSteer prev raw ∧ smoothSteer prev raw ≤ 1 :=
  ⟨le_clampQ _ _ _, clampQ_le _ _ _ (by norm_num)⟩

theorem smoothThrottle_mem (prev raw : ℚ) :
    0 ≤ smoothThrottle prev raw ∧ smoothThrottle prev raw ≤ 1 :=
  ⟨le_clampQ _ _ _, clampQ_le _ _ _ (by norm_num)⟩

theorem rawSteeringOfAngle_mem (a : ℚ) :
    -1 ≤ rawSteeringOfAngle a ∧ rawSteeringOfAngle a ≤ 1 := by
  unfold rawSteeringOfAngle
  split
  case isTrue hw =>
    obtain ⟨h1, h2⟩ := hw
    constructor
    · rw [le_div_iff₀ (by norm_num : (0:ℚ) < 45)]
      linarith
    · rw [div_le_iff₀ (by norm_num : (0:ℚ) < 45)]
      linarith
  case isFalse hw =>
    split <;> norm_num

theorem extractCore_fst_steering (g : GPts) (angle rawThrottle h : ℚ)
    (st : DetState) (c0 : Controls) :
    (extractCore g angle rawThrottle h st c0).1.steering =
      smoothSteer st.prevSteering (rawSteeringOfAngle angle) := by
  unfold extractCore
  dsimp only
  split_ifs <;> rfl

theorem extractCore_fst_throttle_cases (g : GPts) (angle rawThrottle h : ℚ)
    (st : DetState) (c0 : Controls) :
    (extractCore g angle rawThrottle h st c0).1.throttle = 0 ∨
    (extractCore g angle rawThrottle h st c0).1.throttle = 1 ∨
    (extractCore g angle rawThrottle h st c0).1.throttle =
      smoothThrottle st.prevThrottle rawThrottle := by
  unfold extractCore
  dsimp only
  split_ifs <;> simp

theorem extractCore_snd_prev (g : GPts) (angle rawThrottle h : ℚ)
    (st : DetState) (c0 : Controls) :
    (extractCore g angle rawThrottle h st c0).2.prevSteering =
      smoothSteer st.prevSteering (rawSteeringOfAngle angle) ∧
    (extractCore g angle rawThrottle h st c0).2.prevThrottle =
      smoothThrottle st.prevThrottle rawThrottle := by
  unfold extractCore
  dsimp only
  split_ifs <;>
    exact ⟨((updateCommandStability_prev _ _).1), ((updateCommandStability_prev _ _).2)⟩

/-! ## Claims about the Enhanced detector -/

/-- C1: for every per-frame input (any hand angle, any wrist-derived raw
throttle, any previous smoothing state, a hand or no hand), the controls
emitted by `detect_gestures` have steering within `[-1, 1]` and throttle
within `[0, 1]`. -/
theorem controls_range (inp : Option (List (ℤ × ℤ))) (angle rawThrottle h : ℚ)
    (st : DetState) :
    -1 ≤ (detectGestures inp angle rawThrottle h st).1.steering ∧
    (detectGestures inp angle rawThrottle h st).1.steering ≤ 1 ∧
    0 ≤ (detectGestures inp angle rawThrottle h st).1.throttle ∧
    (detectGestures inp angle rawThrottle h st).1.throttle ≤ 1 := by
  match inp with
  | none =>
      norm_num [detectGestures, defaultControls]
  | some l =>
      cases hg : gatherPoints l with
      | none =>
          norm_num [detectGestures, hg, errorControls]
      | some g =>
          have hs := extractCore_fst_steering g angle rawThrottle h st defaultControls
          have ht := extractCore_fst_throttle_cases g angle rawThrottle h st defaultControls
          have hsm := smoothSteer_mem st.prevSteering (rawSteeringOfAngle angle)
          have htm := smoothThrottle_mem st.prevThrottle rawThrottle
          have hred :
              (detectGestures (some l) angle rawThrottle h st).1.steering =
                (extractCore g angle rawThrottle h st defaultControls).1.steering ∧
              (detectGestures (some l) angle rawThrottle h st).1.throttle =
                (extractCore g angle rawThrottle h st defaultControls).1.throttle := by
            simp [detectGestures, hg]
          rw [hred.1, hred.2, hs]
          refine ⟨hsm.1, hsm.2, ?_, ?_⟩
          · rcases ht with h0 | h0 | h0 <;> rw [h0] <;>
              first
              | exact htm.1
              | norm_num
          · rcases ht with h0 | h0 | h0 <;> rw [h0] <;>
              first
              | exact htm.2
              | norm_num

/-- C2: the gesture chain is an if/elif cascade, so every hand tick yields
exactly one of the stop/boost/brake/driving categories; and whenever the
stop-sign predicate and the brake predicate hold simultaneously, the emitted
gesture is the stop one (the stop branch is tested first), never brake. -/
theorem stop_priority (g : GPts) (angle rawThrottle h : ℚ) (st : DetState)
    (c0 : Controls) :
    (categoryOf (extractCore g angle rawThrottle h st c0).1.gestureName).isSome = true ∧
    (stopSignCore g = true → brakeGesture g h = true →
      (extractCore g angle rawThrottle h st c0).1.gestureName = GName.stopTrafficSign ∧
      (extractCore g angle rawThrottle h st c0).1.braking = true ∧
      (extractCore g angle rawThrottle h st c0).1.boost = false ∧
      (extractCore g angle rawThrottle h st c0).1.throttle = 0) := by
  constructor
  · unfold extractCore
    dsimp only
    split_ifs <;> simp [categoryOf]
  · intro hstop _
    simp [extractCore, hstop]

/-- Witness for C2 at a concrete hand on which the stop-sign and brake
predicates hold at the same time. -/
theorem stop_priority_witness :
    stopSignCore dualG = true ∧ brakeGesture dualG 480 = true ∧
    ((extractCore dualG 0 0 480 zeroState defaultControls).1.gestureName =
        GName.stopTrafficSign ∧
      (extractCore dualG 0 0 480 zeroState defaultControls).1.braking = true ∧
      (extractCore dualG 0 0 480 zeroState defaultControls).1.boost = false ∧
      (extractCore dualG 0 0 480 zeroState defaultControls).1.throttle = 0) := by
  have hb : brakeGesture dualG 480 = true := by
    norm_num [brakeGesture, fistDetected, thumbExtended, indexCurled,
      middleCurled, ringCurled, pinkyCurled, dualG]
  exact ⟨by decide, hb,
    (stop_priority dualG 0 0 480 zeroState defaultControls).2 (by decide) hb⟩

/-- Counterexample to C3 as stated: on a stop-sign tick the steering is not
overridden to the neutral value; with previous steering `0` and hand angle
`0` (the exact `atan2` of this hand's MCP line) the emitted steering is
`1/2`, not `0`. -/
theorem stop_steering_not_overridden :
    stopSignCore dualG = true ∧
    (extractCore dualG 0 0 480 zeroState defaultControls).1.braking = true ∧
    (extractCore dualG 0 0 480 zeroState defaultControls).1.throttle = 0 ∧
    (extractCore dualG 0 0 480 zeroState defaultControls).1.steering = 1 / 2 ∧
    ((1 : ℚ) / 2 ≠ 0) := by
  refine ⟨by decide, by decide, by decide, ?_, by norm_num⟩
  rw [extractCore_fst_steering]
  norm_num [smoothSteer, clampQ, zeroState, rawSteeringOfAngle,
    steeringSmoothing, max_def, min_def]

/-- C3 (amended): a stop-sign tick forces braking, zero throttle and no
boost, and emits the stop label, while the steering field keeps the smoothed
continuous value computed from the hand angle (it is not overridden). -/
theorem stop_branch_controls (g : GPts) (angle rawThrottle h : ℚ)
    (st : DetState) (c0 : Controls) (hstop : stopSignCore g = true) :
    (extractCore g angle rawThrottle h st c0).1.braking = true ∧
    (extractCore g angle rawThrottle h st c0).1.throttle = 0 ∧
    (extractCore g angle rawThrottle h st c0).1.boost = false ∧
    (extractCore g angle rawThrottle h st c0).1.gestureName = GName.stopTrafficSign ∧
    (extractCore g angle rawThrottle h st c0).1.steering =
      smoothSteer st.prevSteering (rawSteeringOfAngle angle) := by
  simp [extractCore, hstop]

/-- Witness for C3 (amended) at the concrete stop-sign hand. -/
theorem stop_branch_controls_witness :
    stopSignCore dualG = true ∧
    ((extractCore dualG 0 0 480 zeroState defaultControls).1.braking = true ∧
      (extractCore dualG 0 0 480 zeroState defaultControls).1.throttle = 0 ∧
      (extractCore dualG 0 0 480 zeroState defaultControls).1.boost = false ∧
      (extractCore dualG 0 0 480 zeroState defaultControls).1.gestureName =
        GName.stopTrafficSign ∧
      (extractCore dualG 0 0 480 zeroState defaultControls).1.steering =
        smoothSteer zeroState.prevSteering (rawSteeringOfAngle 0)) :=
  ⟨by decide, stop_branch_controls dualG 0 0 480 zeroState defaultControls (by decide)⟩

/-- Counterexample to C8 as stated: when the internal extraction fails, the
returned controls do not carry the previous tick's smoothed steering (they
are zero), and the label is the error label, not the no-hand label. -/
theorem error_path_not_previous_values :
    errState.prevSteering = 1 / 2 ∧
    (detectGestures (some []) 0 0 480 errState).1.steering = 0 ∧
    ((0 : ℚ) ≠ 1 / 2) ∧
    (detectGestures (some []) 0 0 480 errState).1.gestureName = GName.errorName ∧
    GName.errorName ≠ GName.noHandDetected := by
  refine ⟨rfl, by decide, by norm_num, by decide, by decide⟩

/-- C8 (amended): no exception escapes `detect_gestures` — the model is a
total function — and when the landmark extraction fails the detector returns
the fixed error controls (zero steering and throttle, no braking or boost,
label "Error") and leaves its state unchanged. -/
theorem extraction_failure_yields_error_controls (l : List (ℤ × ℤ))
    (angle rawThrottle h : ℚ) (st : DetState)
    (hfail : gatherPoints l = none) :
    detectGestures (some l) angle rawThrottle h st = (errorControls, st) := by
  simp [detectGestures, hfail]

/-- Witness for C8 (amended): the empty landmark list fails extraction and
produces the error controls. -/
theorem extraction_failure_witness :
    gatherPoints [] = none ∧
    detectGestures (some []) 0 0 480 zeroState = (errorControls, zeroState) :=
  ⟨by decide,
    extraction_failure_yields_error_controls [] 0 0 480 zeroState (by decide)⟩

theorem smooth_dist (a s r : ℚ) (ha0 : 0 ≤ a) :
    |s * a + r * (1 - a) - r| = a * |s - r| := by
  have hring : s * a + r * (1 - a) - r = a * (s - r) := by ring
  rw [hring, abs_mul, abs_of_nonneg ha0]

theorem smooth_clamp_converge (lo hi a r : ℚ) (hlohi : lo ≤ hi) (ha0 : 0 ≤ a)
    (ha12 : a ≤ 1 / 2) (hr1 : lo ≤ r) (hr2 : r ≤ hi) (s : ℕ → ℚ)
    (hstep : ∀ n, s (n + 1) = clampQ lo hi (s n * a + r * (1 - a))) :
    ∀ n : ℕ, |s (n + 1) - r| ≤ (hi - lo) * (1 / 2) ^ n := by
  have ha1 : a ≤ 1 := le_trans ha12 (by norm_num)
  intro n
  induction n with
  | zero =>
      rw [hstep 0]
      have h1 := le_clampQ lo hi (s 0 * a + r * (1 - a))
      have h2 := clampQ_le lo hi (s 0 * a + r * (1 - a)) hlohi
      rw [pow_zero, mul_one, abs_le]
      constructor <;> linarith
  | succ n ih =>
      have hmem1 : lo ≤ s (n + 1) := by rw [hstep n]; exact le_clampQ _ _ _
      have hmem2 : s (n + 1) ≤ hi := by rw [hstep n]; exact clampQ_le _ _ _ hlohi
      have e1 : lo ≤ s (n + 1) * a + r * (1 - a) := by
        nlinarith [mul_nonneg (sub_nonneg.2 hmem1) ha0,
          mul_nonneg (sub_nonneg.2 hr1) (sub_nonneg.2 ha1)]
      have e2 : s (n + 1) * a + r * (1 - a) ≤ hi := by
        nlinarith [mul_nonneg (sub_nonneg.2 hmem2) ha0,
          mul_nonneg (sub_nonneg.2 hr2) (sub_nonneg.2 ha1)]
      have heq : s (n + 2) = s (n + 1) * a + r * (1 - a) := by
        rw [hstep (n + 1)]; exact clampQ_of_mem _ _ _ e1 e2
      rw [heq, smooth_dist a (s (n + 1)) r ha0]
      calc a * |s (n + 1) - r| ≤ (1 / 2) * |s (n + 1) - r| :=
            mul_le_mul_of_nonneg_right ha12 (abs_nonneg _)
        _ ≤ (1 / 2) * ((hi - lo) * (1 / 2) ^ n) := by
            exact mul_le_mul_of_nonneg_left ih (by norm_num)
        _ = (hi - lo) * (1 / 2) ^ (n + 1) := by ring

theorem half_pow_eventually_lt (C ε : ℚ) (hε : 0 < ε) :
    ∃ N : ℕ, ∀ n : ℕ, N ≤ n → C * (1 / 2) ^ n < ε := by
  obtain ⟨K, hK⟩ := exists_nat_gt (C / ε)
  refine ⟨K, fun n hn => ?_⟩
  have h1 : C / ε < (n : ℚ) := lt_of_lt_of_le hK (by exact_mod_cast hn)
  have h2 : (n : ℚ) < 2 ^ n := by exact_mod_cast Nat.lt_two_pow n
  have h3 : C < ε * 2 ^ n := by
    calc C = C / ε * ε := by field_simp
      _ < 2 ^ n * ε := mul_lt_mul_of_pos_right (lt_trans h1 h2) hε
      _ = ε * 2 ^ n := mul_comm _ _
  have hpow : (1 / 2 : ℚ) ^ n = 1 / 2 ^ n := by rw [div_pow, one_pow]
  rw [hpow, mul_one_div, div_lt_iff₀ (by positivity : (0 : ℚ) < 2 ^ n)]
  linarith

/-- C9: feeding the same hand input (hence the same raw steering and raw
throttle) tick after tick makes the smoothed steering and throttle converge
to the raw values: for every positive epsilon there is a tick count after
which both differences stay below it.  The raw throttle is assumed to lie in
`[0, 1]` (a wrist inside the frame), as the claim's raw value does; the raw
steering is in `[-1, 1]` by construction. -/
theorem smoothing_convergence (g : GPts) (angle rawThrottle h : ℚ)
    (st0 : DetState) (ht0 : 0 ≤ rawThrottle) (ht1 : rawThrottle ≤ 1)
    (ε : ℚ) (hε : 0 < ε) :
    ∃ N : ℕ, ∀ n : ℕ, N ≤ n →
      |((stepState g angle rawThrottle h)^[n] st0).prevSteering -
        rawSteeringOfAngle angle| < ε ∧
      |((stepState g angle rawThrottle h)^[n] st0).prevThrottle -
        rawThrottle| < ε := by
  have hrmem := rawSteeringOfAngle_mem angle
  have hsteer : ∀ n : ℕ,
      ((stepState g angle rawThrottle h)^[n + 1] st0).prevSteering =
      clampQ (-1) 1
        (((stepState g angle rawThrottle h)^[n] st0).prevSteering *
            steeringSmoothing +
          rawSteeringOfAngle angle * (1 - steeringSmoothing)) := by
    intro n
    rw [Function.iterate_succ_apply']
    exact (extractCore_snd_prev g angle rawThrottle h
      ((stepState g angle rawThrottle h)^[n] st0) defaultControls).1
  have hthr : ∀ n : ℕ,
      ((stepState g angle rawThrottle h)^[n + 1] st0).prevThrottle =
      clampQ 0 1
        (((stepState g angle rawThrottle h)^[n] st0).prevThrottle *
            throttleSmoothing +
          rawThrottle * (1 - throttleSmoothing)) := by
    intro n
    rw [Function.iterate_succ_apply']
    exact (extractCore_snd_prev g angle rawThrottle h
      ((stepState g angle rawThrottle h)^[n] st0) defaultControls).2
  have hboundS := smooth_clamp_converge (-1) 1 steeringSmoothing
    (rawSteeringOfAngle angle) (by norm_num)
    (by norm_num [steeringSmoothing]) (by norm_num [steeringSmoothing])
    hrmem.1 hrmem.2
    (fun k => ((stepState g angle rawThrottle h)^[k] st0).prevSteering) hsteer
  have hboundT := smooth_clamp_converge 0 1 throttleSmoothing rawThrottle
    (by norm_num) (by norm_num [throttleSmoothing])
    (by norm_num [throttleSmoothing]) ht0 ht1
    (fun k => ((stepState g angle rawThrottle h)^[k] st0).prevThrottle) hthr
  obtain ⟨N1, hN1⟩ := half_pow_eventually_lt 2 ε hε
  obtain ⟨N2, hN2⟩ := half_pow_eventually_lt 1 ε hε
  refine ⟨N1 + N2 + 1, fun n hn => ?_⟩
  obtain ⟨m, rfl⟩ : ∃ m, n = m + 1 := ⟨n - 1, by omega⟩
  constructor
  · calc |((stepState g angle rawThrottle h)^[m + 1] st0).prevSteering -
          rawSteeringOfAngle angle| ≤ (1 - (-1)) * (1 / 2) ^ m := hboundS m
      _ = 2 * (1 / 2) ^ m := by norm_num
      _ < ε := hN1 m (by omega)
  · calc |((stepState g angle rawThrottle h)^[m + 1] st0).prevThrottle -
          rawThrottle| ≤ (1 - 0) * (1 / 2) ^ m := hboundT m
      _ = 1 * (1 / 2) ^ m := by norm_num
      _ < ε := hN2 m (by omega)

/-- Witness for C9 at a concrete hand, raw throttle `0` and epsilon `1`. -/
theorem smoothing_convergence_witness :
    (0 : ℚ) ≤ 0 ∧ (0 : ℚ) ≤ 1 ∧ (0 : ℚ) < 1 ∧
    (∃ N : ℕ, ∀ n : ℕ, N ≤ n →
      |((stepState dualG 0 0 480)^[n] zeroState).prevSteering -
        rawSteeringOfAngle 0| < 1 ∧
      |((stepState dualG 0 0 480)^[n] zeroState).prevThrottle - 0| < 1) :=
  ⟨le_refl 0, by norm_num, by norm_num,
    smoothing_convergence dualG 0 0 480 zeroState (le_refl 0) (by norm_num)
      1 (by norm_num)⟩

end Improved

namespace Basic

theorem boostPredB_imp_fist (l : List (ℤ × ℤ)) (h : boostPredB l = true) :
    fistPredB l = true := by
  unfold boostPredB at h
  unfold fistPredB
  simp only [Bool.and_eq_true] at h ⊢
  tauto

theorem boostPredB_of_not_fist (l : List (ℤ × ℤ)) (h : fistPredB l = false) :
    boostPredB l = false := by
  cases hb : boostPredB l with
  | false => rfl
  | true => rw [boostPredB_imp_fist l hb] at h; cases h

theorem bStepNone_state (a t : ℚ) (st : BState) :
    (bDetectStep none a t st).2.boostActive = false ∧
    (bDetectStep none a t st).2.boostStableCount = 0 ∧
    (bDetectStep none a t st).2.brakeStableCount = st.brakeStableCount - 1 ∧
    (bDetectStep none a t st).2.brakingActive =
      (if st.brakeStableCount = 0 then false else st.brakingActive) ∧
    (bDetectStep none a t st).1.braking = (bDetectStep none a t st).2.brakingActive := by
  rcases Nat.eq_zero_or_pos st.brakeStableCount with h0 | hpos
  · simp [bDetectStep, h0]
  · have hne : ¬st.brakeStableCount = 0 := by omega
    simp [bDetectStep, hpos, hne]

theorem bStepSome_state (l : List (ℤ × ℤ)) (a t : ℚ) (st : BState) :
    (bDetectStep (some l) a t st).2.brakeStableCount =
      (if fistPredB l then min stableFramesRequired (st.brakeStableCount + 1)
       else st.brakeStableCount - 1) ∧
    (bDetectStep (some l) a t st).2.brakingActive =
      (if fistPredB l then
        (if stableFramesRequired ≤ st.brakeStableCount + 1 then true
         else st.brakingActive)
       else (if st.brakeStableCount = 0 then false else st.brakingActive)) ∧
    (bDetectStep (some l) a t st).2.boostStableCount =
      (if boostPredB l then min stableFramesRequired (st.boostStableCount + 1)
       else st.boostStableCount - 1) ∧
    (bDetectStep (some l) a t st).2.boostActive =
      (if boostPredB l then
        (if stableFramesRequired ≤ st.boostStableCount + 1 then true
         else st.boostActive)
       else (if st.boostStableCount = 0 then false else st.boostActive)) := by
  unfold bDetectStep
  dsimp only
  cases hf : fistPredB l <;> cases hb : boostPredB l <;>
    simp only [hf, hb, stableFramesRequired, if_true, if_false, Bool.false_eq_true,
      Bool.true_eq_false] <;>
    split_ifs <;> simp_all

theorem bStepSome_boost_out (l : List (ℤ × ℤ)) (a t : ℚ) (st : BState) :
    (bDetectStep (some l) a t st).1.boost = (bDetectStep (some l) a t st).2.boostActive := by
  unfold bDetectStep
  dsimp only
  split_ifs <;> rfl

theorem bStepSome_braking_out_of_active (l : List (ℤ × ℤ)) (a t : ℚ)
    (st : BState)
    (hact : (bDetectStep (some l) a t st).2.brakingActive = true) :
    (bDetectStep (some l) a t st).1.braking = true := by
  revert hact
  unfold bDetectStep
  dsimp only
  split_ifs <;> simp_all

theorem bStepSome_braking_out_of_inactive (l : List (ℤ × ℤ)) (a t : ℚ)
    (st : BState)
    (hact : (bDetectStep (some l) a t st).2.brakingActive = false)
    (hstop : isStopGesture l = false) :
    (bDetectStep (some l) a t st).1.braking = false := by
  revert hact
  unfold bDetectStep
  dsimp only
  split_ifs <;> simp_all

theorem bRun_cons (i : BInput) (rest : List BInput) (st : BState) :
    bRun (i :: rest) st = bRun rest (bDetectStep i.1 i.2.1 i.2.2 st).2 := rfl

theorem nonfist_run_keeps_brake_inactive (rest : List BInput) :
    ∀ st : BState, st.brakingActive = false → (∀ i ∈ rest, NonFistInput i) →
    (bRun rest st).brakingActive = false := by
  induction rest with
  | nil =>
      intro st h _
      simpa [bRun] using h
  | cons i rest ih =>
      intro st h hall
      rw [bRun_cons]
      refine ih _ ?_ (fun j hj => hall j (List.mem_cons_of_mem _ hj))
      cases hi : i.1 with
      | none =>
          have hs := (bStepNone_state i.2.1 i.2.2 st).2.2.2.1
          rw [hs, h]
          split <;> rfl
      | some l =>
          have hf : fistPredB l = false := hall i (List.mem_cons_self _ _) l hi
          have hs := (bStepSome_state l i.2.1 i.2.2 st).2.1
          rw [hs, hf, h]
          simp

theorem nonboost_run_keeps_boost_inactive (rest : List BInput) :
    ∀ st : BState, st.boostActive = false → (∀ i ∈ rest, NonBoostInput i) →
    (bRun rest st).boostActive = false := by
  induction rest with
  | nil =>
      intro st h _
      simpa [bRun] using h
  | cons i rest ih =>
      intro st h hall
      rw [bRun_cons]
      refine ih _ ?_ (fun j hj => hall j (List.mem_cons_of_mem _ hj))
      cases hi : i.1 with
      | none =>
          exact (bStepNone_state i.2.1 i.2.2 st).1
      | some l =>
          have hb : boostPredB l = false := hall i (List.mem_cons_self _ _) l hi
          have hs := (bStepSome_state l i.2.1 i.2.2 st).2.2.2
          rw [hs, hb, h]
          simp

/-! ## Claims about the gestures.py HandGestureDetector -/

/-- C4: from a zero counter and inactive latch, a raw brake (fist) or boost
predicate that holds for only two consecutive frames never activates the
gesture — including under any further frames on which the predicate is false
— while holding for three consecutive frames activates it on the third frame
(and the third frame's controls report it). -/
theorem debounce_threshold :
    (∀ (st : BState) (l1 l2 l3 : List (ℤ × ℤ)) (a1 t1 a2 t2 a3 t3 : ℚ),
      st.brakeStableCount = 0 → st.brakingActive = false →
      fistPredB l1 = true → fistPredB l2 = true → fistPredB l3 = true →
      (bStepS l1 a1 t1 st).brakingActive = false ∧
      (bStepS l2 a2 t2 (bStepS l1 a1 t1 st)).brakingActive = false ∧
      (∀ rest : List BInput, (∀ i ∈ rest, NonFistInput i) →
        (bRun rest (bStepS l2 a2 t2 (bStepS l1 a1 t1 st))).brakingActive = false) ∧
      (bStepS l3 a3 t3 (bStepS l2 a2 t2 (bStepS l1 a1 t1 st))).brakingActive = true ∧
      (bDetectStep (some l3) a3 t3
        (bStepS l2 a2 t2 (bStepS l1 a1 t1 st))).1.braking = true) ∧
    (∀ (st : BState) (l1 l2 l3 : List (ℤ × ℤ)) (a1 t1 a2 t2 a3 t3 : ℚ),
      st.boostStableCount = 0 → st.boostActive = false →
      boostPredB l1 = true → boostPredB l2 = true → boostPredB l3 = true →
      (bStepS l1 a1 t1 st).boostActive = false ∧
      (bStepS l2 a2 t2 (bStepS l1 a1 t1 st)).boostActive = false ∧
      (∀ rest : List BInput, (∀ i ∈ rest, NonBoostInput i) →
        (bRun rest (bStepS l2 a2 t2 (bStepS l1 a1 t1 st))).boostActive = false) ∧
      (bStepS l3 a3 t3 (bStepS l2 a2 t2 (bStepS l1 a1 t1 st))).boostActive = true ∧
      (bDetectStep (some l3) a3 t3
        (bStepS l2 a2 t2 (bStepS l1 a1 t1 st))).1.boost = true) := by
  constructor
  · intro st l1 l2 l3 a1 t1 a2 t2 a3 t3 hc ha h1 h2 h3
    simp only [bStepS]
    have e1c : (bDetectStep (some l1) a1 t1 st).2.brakeStableCount = 1 := by
      rw [(bStepSome_state l1 a1 t1 st).1, h1, hc]
      norm_num [stableFramesRequired]
    have e1a : (bDetectStep (some l1) a1 t1 st).2.brakingActive = false := by
      rw [(bStepSome_state l1 a1 t1 st).2.1, h1, hc, ha]
      norm_num [stableFramesRequired]
    have e2c : (bDetectStep (some l2) a2 t2
        (bDetectStep (some l1) a1 t1 st).2).2.brakeStableCount = 2 := by
      rw [(bStepSome_state l2 a2 t2 _).1, h2, e1c]
      norm_num [stableFramesRequired]
    have e2a : (bDetectStep (some l2) a2 t2
        (bDetectStep (some l1) a1 t1 st).2).2.brakingActive = false := by
      rw [(bStepSome_state l2 a2 t2 _).2.1, h2, e1c, e1a]
      norm_num [stableFramesRequired]
    have e3a : (bDetectStep (some l3) a3 t3 ((bDetectStep (some l2) a2 t2
        (bDetectStep (some l1) a1 t1 st).2).2)).2.brakingActive = true := by
      rw [(bStepSome_state l3 a3 t3 _).2.1, h3, e2c]
      norm_num [stableFramesRequired]
    exact ⟨e1a, e2a,
      fun rest hrest => nonfist_run_keeps_brake_inactive rest _ e2a hrest,
      e3a, bStepSome_braking_out_of_active l3 a3 t3 _ e3a⟩
  · intro st l1 l2 l3 a1 t1 a2 t2 a3 t3 hc ha h1 h2 h3
    simp only [bStepS]
    have e1c : (bDetectStep (some l1) a1 t1 st).2.boostStableCount = 1 := by
      rw [(bStepSome_state l1 a1 t1 st).2.2.1, h1, hc]
      norm_num [stableFramesRequired]
    have e1a : (bDetectStep (some l1) a1 t1 st).2.boostActive = false := by
      rw [(bStepSome_state l1 a1 t1 st).2.2.2, h1, hc, ha]
      norm_num [stableFramesRequired]
    have e2c : (bDetectStep (some l2) a2 t2
        (bDetectStep (some l1) a1 t1 st).2).2.boostStableCount = 2 := by
      rw [(bStepSome_state l2 a2 t2 _).2.2.1, h2, e1c]
      norm_num [stableFramesRequired]
    have e2a : (bDetectStep (some l2) a2 t2
        (bDetectStep (some l1) a1 t1 st).2).2.boostActive = false := by
      rw [(bStepSome_state l2 a2 t2 _).2.2.2, h2, e1c, e1a]
      norm_num [stableFramesRequired]
    have e3a : (bDetectStep (some l3) a3 t3 ((bDetectStep (some l2) a2 t2
        (bDetectStep (some l1) a1 t1 st).2).2)).2.boostActive = true := by
      rw [(bStepSome_state l3 a3 t3 _).2.2.2, h3, e2c]
      norm_num [stableFramesRequired]
    refine ⟨e1a, e2a,
      fun rest hrest => nonboost_run_keeps_boost_inactive rest _ e2a hrest,
      e3a, ?_⟩
    rw [bStepSome_boost_out]
    exact e3a

/-- Witness for C4 at concrete fist and thumb-up hands from the fresh state:
two frames leave the gesture inactive (also after a no-hand frame and a
neutral-hand frame), the third frame activates it. -/
theorem debounce_threshold_witness :
    fistPredB fistHand = true ∧ boostPredB boostHand = true ∧
    (bStepS fistHand 0 0 zeroBState).brakingActive = false ∧
    (bStepS fistHand 0 0 (bStepS fistHand 0 0 zeroBState)).brakingActive = false ∧
    (bRun [(none, 0, 0), (some neutralHand, 0, 0)]
      (bStepS fistHand 0 0 (bStepS fistHand 0 0 zeroBState))).brakingActive = false ∧
    (bStepS fistHand 0 0
      (bStepS fistHand 0 0 (bStepS fistHand 0 0 zeroBState))).brakingActive = true ∧
    (bStepS boostHand 0 0
      (bStepS boostHand 0 0 (bStepS boostHand 0 0 zeroBState))).boostActive = true := by
  have hf : fistPredB fistHand = true := by decide
  have hb : boostPredB boostHand = true := by decide
  have H1 := debounce_threshold.1 zeroBState fistHand fistHand fistHand
    0 0 0 0 0 0 rfl rfl hf hf hf
  have H2 := debounce_threshold.2 zeroBState boostHand boostHand boostHand
    0 0 0 0 0 0 rfl rfl hb hb hb
  have hrest : ∀ i ∈ ([(none, 0, 0), (some neutralHand, 0, 0)] : List BInput),
      NonFistInput i := by
    intro i hi
    simp only [List.mem_cons, List.mem_singleton] at hi
    rcases hi with rfl | rfl | h
    · intro l hl; cases hl
    · intro l hl
      cases hl
      decide
    · cases h
  exact ⟨hf, hb, H1.1, H1.2.1, H1.2.2.1 _ hrest, H1.2.2.2.1, H2.2.2.2.1⟩

/-- Counterexample to C5 as stated: with the brake latched at the threshold,
after three consecutive frames on which the fist predicate is false the
brake is still active and still reported (the claim predicts deactivation
after threshold − 1 = 2 such frames). -/
theorem brake_decay_still_active_on_third :
    fistPredB neutralHand = false ∧ isStopGesture neutralHand = false ∧
    decaySt.brakeStableCount = stableFramesRequired ∧
    decaySt.brakingActive = true ∧
    (bStepS neutralHand 0 0 (bStepS neutralHand 0 0
      (bStepS neutralHand 0 0 decaySt))).brakingActive = true ∧
    (bDetectStep (some neutralHand) 0 0 (bStepS neutralHand 0 0
      (bStepS neutralHand 0 0 decaySt))).1.braking = true := by
  decide

/-- C5 (amended): with the brake active and its counter at the threshold 3,
frames on which the fist predicate is false keep braking reported for exactly
three more frames; the fourth such frame deactivates it (given the stop
gesture is absent on that frame). -/
theorem brake_decay_duration (st : BState) (l1 l2 l3 l4 : List (ℤ × ℤ))
    (a1 t1 a2 t2 a3 t3 a4 t4 : ℚ)
    (hc : st.brakeStableCount = 3) (ha : st.brakingActive = true)
    (h1 : fistPredB l1 = false) (h2 : fistPredB l2 = false)
    (h3 : fistPredB l3 = false) (h4 : fistPredB l4 = false)
    (hs4 : isStopGesture l4 = false) :
    (bDetectStep (some l1) a1 t1 st).1.braking = true ∧
    (bDetectStep (some l2) a2 t2 (bStepS l1 a1 t1 st)).1.braking = true ∧
    (bDetectStep (some l3) a3 t3
      (bStepS l2 a2 t2 (bStepS l1 a1 t1 st))).1.braking = true ∧
    (bDetectStep (some l4) a4 t4
      (bStepS l3 a3 t3 (bStepS l2 a2 t2 (bStepS l1 a1 t1 st)))).1.braking = false ∧
    (bStepS l4 a4 t4
      (bStepS l3 a3 t3 (bStepS l2 a2 t2 (bStepS l1 a1 t1 st)))).brakingActive = false := by
  simp only [bStepS]
  have e1c : (bDetectStep (some l1) a1 t1 st).2.brakeStableCount = 2 := by
    rw [(bStepSome_state l1 a1 t1 st).1, h1, hc]
    norm_num
  have e1a : (bDetectStep (some l1) a1 t1 st).2.brakingActive = true := by
    rw [(bStepSome_state l1 a1 t1 st).2.1, h1, hc, ha]
    norm_num
  have e2c : (bDetectStep (some l2) a2 t2
      (bDetectStep (some l1) a1 t1 st).2).2.brakeStableCount = 1 := by
    rw [(bStepSome_state l2 a2 t2 _).1, h2, e1c]
    norm_num
  have e2a : (bDetectStep (some l2) a2 t2
      (bDetectStep (some l1) a1 t1 st).2).2.brakingActive = true := by
    rw [(bStepSome_state l2 a2 t2 _).2.1, h2, e1c, e1a]
    norm_num
  have e3c : (bDetectStep (some l3) a3 t3 ((bDetectStep (some l2) a2 t2
      (bDetectStep (some l1) a1 t1 st).2).2)).2.brakeStableCount = 0 := by
    rw [(bStepSome_state l3 a3 t3 _).1, h3, e2c]
    norm_num
  have e3a : (bDetectStep (some l3) a3 t3 ((bDetectStep (some l2) a2 t2
      (bDetectStep (some l1) a1 t1 st).2).2)).2.brakingActive = true := by
    rw [(bStepSome_state l3 a3 t3 _).2.1, h3, e2c, e2a]
    norm_num
  have e4a : (bDetectStep (some l4) a4 t4 ((bDetectStep (some l3) a3 t3
      ((bDetectStep (some l2) a2 t2
        (bDetectStep (some l1) a1 t1 st).2).2)).2)).2.brakingActive = false := by
    rw [(bStepSome_state l4 a4 t4 _).2.1, h4, e3c]
    norm_num
  exact ⟨bStepSome_braking_out_of_active l1 a1 t1 st e1a,
    bStepSome_braking_out_of_active l2 a2 t2 _ e2a,
    bStepSome_braking_out_of_active l3 a3 t3 _ e3a,
    bStepSome_braking_out_of_inactive l4 a4 t4 _ e4a hs4,
    e4a⟩

/-- Witness for C5 (amended) at the latched state and the neutral hand. -/
theorem brake_decay_duration_witness :
    fistPredB neutralHand = false ∧ isStopGesture neutralHand = false ∧
    ((bDetectStep (some neutralHand) 0 0 decaySt).1.braking = true ∧
      (bDetectStep (some neutralHand) 0 0
        (bStepS neutralHand 0 0 decaySt)).1.braking = true ∧
      (bDetectStep (some neutralHand) 0 0 (bStepS neutralHand 0 0
        (bStepS neutralHand 0 0 decaySt))).1.braking = true ∧
      (bDetectStep (some neutralHand) 0 0 (bStepS neutralHand 0 0
        (bStepS neutralHand 0 0 (bStepS neutralHand 0 0 decaySt)))).1.braking = false ∧
      (bStepS neutralHand 0 0 (bStepS neutralHand 0 0 (bStepS neutralHand 0 0
        (bStepS neutralHand 0 0 decaySt)))).brakingActive = false) :=
  ⟨by decide, by decide,
    brake_decay_duration decaySt neutralHand neutralHand neutralHand neutralHand
      0 0 0 0 0 0 0 0 rfl rfl (by decide) (by decide) (by decide) (by decide)
      (by decide)⟩

/-- C6: a no-hand tick immediately resets the boost state (counter to zero,
latch to false) whatever it was, while the brake counter only decays by one
(it is not zeroed) and the brake latch turns off exactly on the tick whose
counter is already zero. -/
theorem no_hand_reset (angle rawThrottle : ℚ) (st : BState) :
    (bDetectStep none angle rawThrottle st).2.boostActive = false ∧
    (bDetectStep none angle rawThrottle st).2.boostStableCount = 0 ∧
    (bDetectStep none angle rawThrottle st).2.brakeStableCount =
      st.brakeStableCount - 1 ∧
    (bDetectStep none angle rawThrottle st).2.brakingActive =
      (if st.brakeStableCount = 0 then false else st.brakingActive) ∧
    (bDetectStep none angle rawThrottle st).1.boost = false ∧
    (bDetectStep none angle rawThrottle st).1.braking =
      (if st.brakeStableCount = 0 then false else st.brakingActive) := by
  have hs := bStepNone_state angle rawThrottle st
  refine ⟨hs.1, hs.2.1, hs.2.2.1, hs.2.2.2.1, ?_, ?_⟩
  · rcases Nat.eq_zero_or_pos st.brakeStableCount with h0 | hp
    · simp [bDetectStep, h0]
    · simp [bDetectStep, hp]
  · rw [hs.2.2.2.2, hs.2.2.2.1]

/-- C10: a no-hand tick returns the default controls: throttle exactly 0.2
(not zero), steering 0, boost off, label "No hand detected". -/
theorem no_hand_default_controls (angle rawThrottle : ℚ) (st : BState) :
    (bDetectStep none angle rawThrottle st).1.throttle = 1 / 5 ∧
    (bDetectStep none angle rawThrottle st).1.steering = 0 ∧
    (bDetectStep none angle rawThrottle st).1.boost = false ∧
    (bDetectStep none angle rawThrottle st).1.gestureName = BName.noHand := by
  rcases Nat.eq_zero_or_pos st.brakeStableCount with h0 | hp
  · simp [bDetectStep, h0]
  · simp [bDetectStep, hp]

/-- C7: on landmark lists with fewer than 21 points, the three
`HandGestureDetector` classifier predicates return false, but the Enhanced
detector's stop-sign predicate fails its landmark indexing (an `IndexError`
in the source, `none` in the model) instead of returning false. -/
theorem short_landmark_predicates :
    isFistGesture [] = false ∧ isStopGesture [] = false ∧
    isBoostGesture [] = false ∧
    Improved.detectStopSignGesture [] = none ∧
    isFistGesture (List.replicate 20 ((0 : ℤ), (0 : ℤ))) = false ∧
    isStopGesture (List.replicate 20 ((0 : ℤ), (0 : ℤ))) = false ∧
    isBoostGesture (List.replicate 20 ((0 : ℤ), (0 : ℤ))) = false ∧
    Improved.detectStopSignGesture (List.replicate 20 ((0 : ℤ), (0 : ℤ))) = none := by
  decide

end Basic

end HandMove
